import Mathlib

/-!
Shallow embedding of the credential/certificate lifecycle subsystem of
LovePelmeni/Cloud-Web-Infrastracture: the SSH certificate and root-credential
managers of `ssh_config/ssh_config.go` and the repository operations of
`models/models.go`.  The external vSphere control plane and the relational
store are modelled as explicit parameters (a record of oracles and an
association list of rows); Go contexts become explicit deadline values, Go
`(value, error)` multi-returns become pairs of options, and a Go nil-pointer
dereference becomes a dedicated result constructor of a total function.
-/

/-- Deadline-bearing cancellation token, mirroring Go `context.Context`:
`none` is `context.Background()`, `some d` a context whose deadline is `d`
nanoseconds from now. -/
structure Context where
  deadlineNanos : Option Nat
deriving DecidableEq, Repr

/-- Mirrors `context.Background()`. -/
def backgroundContext : Context :=
  { deadlineNanos := none }

/-- Mirrors `context.WithTimeout(parent, d)`: the child deadline is the
timeout, clipped by any earlier parent deadline. -/
def contextWithTimeout (parent : Context) (timeout : Nat) : Context :=
  match parent.deadlineNanos with
  | none => { deadlineNanos := some timeout }
  | some d => { deadlineNanos := some (min d timeout) }

/-- Mirrors Go `time.Second` in nanoseconds. -/
def timeSecond : Nat := 1000000000

/-- Mirrors Go `time.Minute` in nanoseconds. -/
def timeMinute : Nat := 60 * timeSecond

/-- Reference to a `govmomi` `object.VirtualMachine`: the managed object the
ssh managers operate on, identified here by its name (the only attribute the
embedded code reads, via `VirtualMachine.Name()`). -/
structure VmRef where
  name : String
deriving DecidableEq, Repr

/-- Log events emitted through the `zap` logger by the embedded functions,
one constructor per call site in `ssh_config.go`. -/
inductive LogEvent where
  | errorDetermineHostSystem
  | errorDownloadSshKeyFile
  | debugSshKeyUploaded
  | errorUploadSshKey
  | debugFailedGetVmInstance
deriving DecidableEq, Repr

/-- Errors the embedded functions can return: either an error value produced
by the control-plane library (an opaque fault code), or one of the
`errors.New` messages constructed in `ssh_config.go`. -/
inductive GoError where
  | fault (code : Nat)
  | certificateNotFound
  | failedToGetHostSystemInfo
  | failedToAddSshSupport
  | failedToGetOsInfo
deriving DecidableEq, Repr

/-- Result of a Go function call in a total embedding: a returned value, a
returned error, or a runtime panic from dereferencing a nil pointer. -/
inductive GoResult (α : Type) where
  | ok (value : α)
  | err (e : GoError)
  | nilPointerDereference
deriving DecidableEq, Repr

/-- Slice of `govmomi` `object.HostCertificateInfo` the subsystem reads: the
subject (distinguished name) of the certificate installed on the host. -/
structure HostCertificateInfo where
  subject : String
deriving DecidableEq, Repr

/-- Mirrors `SshCertificateCredentials` of `ssh_config.go` ( `FilePath`,
`FileName`, `Content` ); Go `[]byte` content is carried as a string. -/
structure SshCertificateCredentials where
  FilePath : String
  FileName : String
  Content : String
deriving DecidableEq, Repr

/-- Mirrors `NewSshCertificateCredentials`: sets `FileName` and `Content`,
leaving `FilePath` at its zero value. -/
def NewSshCertificateCredentials (Content : String) (FileName : String) :
    SshCertificateCredentials :=
  { FilePath := "", FileName := FileName, Content := Content }

/-- Mirrors `govmomi` `types.NamePasswordAuthentication`. -/
structure NamePasswordAuthentication where
  Username : String
  Password : String
deriving DecidableEq, Repr

/-- Oracle record for the external vSphere control plane consumed by
`ssh_config.go`.  Each field models one remote call; every one takes the
deadline-bearing context the Go code passes to it.  `hostSystemOf` models
`VirtualMachine.HostSystem` (none is a resolution failure), `signByDn`
models `GenerateCertificateSigningRequestByDn` on a given host (returned
content together with an optional error, as in Go), `installServerCertificate`
models `InstallServerCertificate` (an error, or none on success),
`certificateInfoFault` models a transport failure of `CertificateInfo`,
`retrieveOne` models `property.Collector.RetrieveOne` (an error, or none on
success), and `subjectOf` extracts the distinguished name recorded in a
certificate blob. -/
structure ControlPlane where
  hostSystemOf : Context → String → Option String
  signByDn : Context → String → String → String × Option GoError
  installServerCertificate : Context → String → String → Option GoError
  certificateInfoFault : Context → String → Option GoError
  retrieveOne : Context → String → Option GoError
  subjectOf : String → String

/-- State of the control plane mutated by certificate installation: an
association list from host-system reference to the content of its installed
server certificate. -/
def HostCerts : Type := List (String × String)

/-- Installing a server certificate replaces any certificate previously
installed on that host. -/
def installCert (st : HostCerts) (host : String) (content : String) : HostCerts :=
  (host, content) :: List.filter (fun p => p.1 != host) st

/-- Mirrors `HostCertificateManager.CertificateInfo`: fails on a transport
fault or when no certificate is installed on the host, otherwise reports the
subject of the installed certificate. -/
def managerCertificateInfo (cp : ControlPlane) (st : HostCerts) (ctx : Context)
    (host : String) : Except GoError HostCertificateInfo :=
  match cp.certificateInfoFault ctx host with
  | some e => Except.error e
  | none =>
    match List.lookup host st with
    | none => Except.error GoError.certificateNotFound
    | some content => Except.ok { subject := cp.subjectOf content }

/-- Embeds `VirtualMachineSshCertificateManager.GetSshPublicCertificate`
(ssh_config.go lines 90-109).  The source declares the local pointer
`CertificateHostManager` with `var ... *types.ManagedObjectReference` and
never assigns it; a failed `HostSystem` lookup is only logged, after which
`object.NewHostCertificateManager` dereferences the still-nil pointer.  The
embedding keeps the declaration as `none` and makes the dereference a
`nilPointerDereference` result; the branch below it is the code that would
run were the pointer ever assigned. -/
def GetSshPublicCertificate (cp : ControlPlane) (st : HostCerts) (vm : VmRef)
    (SshKeyFileName : String) : GoResult HostCertificateInfo × List LogEvent :=
  let CertificateHostManager : Option String := none
  let TimeoutContext := contextWithTimeout backgroundContext (timeSecond * 20)
  let hostSystem := cp.hostSystemOf TimeoutContext vm.name
  let logs :=
    match hostSystem with
    | none => [LogEvent.errorDetermineHostSystem]
    | some _ => []
  match CertificateHostManager with
  | none => (GoResult.nilPointerDereference, logs)
  | some _certificateRef =>
    match hostSystem with
    | none => (GoResult.nilPointerDereference, logs)
    | some host =>
      match managerCertificateInfo cp st TimeoutContext host with
      | Except.error e => (GoResult.err e, logs ++ [LogEvent.errorDownloadSshKeyFile])
      | Except.ok info => (GoResult.ok info, logs)

/-- Embeds `VirtualMachineSshCertificateManager.UploadSshKeys`
(ssh_config.go lines 111-137): resolve the host under a one-minute context,
install the key content as the host server certificate, and map the
outcomes to the `errors.New` messages of the source.  Returns the returned
error, the updated control-plane state, and the emitted log events. -/
def UploadSshKeys (cp : ControlPlane) (st : HostCerts) (vm : VmRef)
    (Key : SshCertificateCredentials) : Option GoError × HostCerts × List LogEvent :=
  let TimeoutContext := contextWithTimeout backgroundContext (timeMinute * 1)
  match cp.hostSystemOf TimeoutContext vm.name with
  | none => (some GoError.failedToGetHostSystemInfo, st, [])
  | some host =>
    match cp.installServerCertificate TimeoutContext host Key.Content with
    | none => (none, installCert st host Key.Content, [LogEvent.debugSshKeyUploaded])
    | some _ => (some GoError.failedToAddSshSupport, st, [LogEvent.errorUploadSshKey])

/-- Mirrors the distinguished-name construction of `GenerateSshKeys`:
`fmt.Sprintf("VirtualMachine-%s", VirtualMachine.Name())`. -/
def sslCertificateDistinguishName (vm : VmRef) : String :=
  "VirtualMachine-" ++ vm.name

/-- Embeds `VirtualMachineSshCertificateManager.GenerateSshKeys`
(ssh_config.go lines 139-162): resolve the host under a one-minute context,
request a certificate-signing request for the distinguished name, and return
`NewSshCertificateCredentials(content, "ssh_key.pub")` TOGETHER with the
generation error, exactly as the single return statement of the source
does. -/
def GenerateSshKeys (cp : ControlPlane) (vm : VmRef) :
    Option SshCertificateCredentials × Option GoError :=
  let TimeoutContext := contextWithTimeout backgroundContext (timeMinute * 1)
  match cp.hostSystemOf TimeoutContext vm.name with
  | none => (none, some GoError.failedToGetOsInfo)
  | some host =>
    let SSLCertificateDistinguishName := sslCertificateDistinguishName vm
    let generated := cp.signByDn TimeoutContext host SSLCertificateDistinguishName
    (some (NewSshCertificateCredentials generated.1 ("ssh_key.pub")), generated.2)

/-- Random draws consumed by one call to `GetSshRootCredentials`, plus the
hashing primitive.  `uuidNew` is the identifier drawn by `uuid.New()`;
`bcryptSalt` and `bcryptDigest` belong to the bcrypt model below. -/
structure RootCredentialsEnv where
  uuidNew : String
  bcryptSalt : String
  bcryptDigest : String → String → Nat → String

/-- Modelled from the spec: the password-hashing primitive
(`bcrypt.GenerateFromPassword`, golang.org/x/crypto/bcrypt) is external to
the repository and is consumed as an opaque one-way function; its output
is in modular-crypt format, a dollar-prefixed header carrying the cost,
followed by the salt and an opaque digest of salt and password. -/
def bcryptGenerateFromPassword (env : RootCredentialsEnv) (password : String)
    (cost : Nat) : String :=
  "$2a$" ++ toString cost ++ "$" ++ env.bcryptSalt
    ++ env.bcryptDigest env.bcryptSalt password cost

/-- Lower-case hexadecimal digit, the alphabet of `uuid.New().String()`. -/
def isHexChar (ch : Char) : Bool :=
  ch.isDigit || ('a' ≤ ch && ch ≤ 'f')

/-- Canonical textual form of a uuid as produced by `uuid.New().String()`:
36 characters, all of them hexadecimal digits or hyphens. -/
def isUuidString (s : String) : Bool :=
  s.length == 36 && s.data.all (fun ch => isHexChar ch || ch == '-')

/-- Embeds `VirtualMachineSshRootCredentialsManager.GetSshRootCredentials`
(ssh_config.go lines 188-214): draw a uuid, feed it through bcrypt at cost
15, fix the username to root, then retrieve the name/guest attributes under
a ten-second context; on a retrieve error return it (after logging) with no
credentials, otherwise return the credentials. -/
def GetSshRootCredentials (env : RootCredentialsEnv) (cp : ControlPlane)
    (vm : VmRef) : Option NamePasswordAuthentication × Option GoError × List LogEvent :=
  let PasswordUuid := env.uuidNew
  let GeneratedOsPassword := bcryptGenerateFromPassword env PasswordUuid 15
  let SshCredentials : NamePasswordAuthentication :=
    { Username := "root", Password := GeneratedOsPassword }
  let TimeoutContext := contextWithTimeout backgroundContext (timeSecond * 10)
  match cp.retrieveOne TimeoutContext vm.name with
  | some retrieveError =>
    (none, some retrieveError, [LogEvent.debugFailedGetVmInstance])
  | none => (some SshCredentials, none, [])

/-- Mirrors the `models.VirtualMachine` gorm model (models.go lines 95-102):
the `gorm.Model` primary key and soft-delete timestamp, plus the
write-once owner, name, item path and IP address columns. -/
structure VirtualMachine where
  id : Nat
  deletedAt : Option Nat
  OwnerId : String
  VirtualMachineName : String
  ItemPath : String
  IPAddress : String
deriving DecidableEq, Repr

/-- Error values surfaced by the embedded gorm operations.  A delete whose
model carries the zero-value primary key has no WHERE condition and is
rejected by gorm ( `gorm.ErrMissingWhereClause` ); deleting a row that is
already absent is not an error. -/
inductive GormError where
  | missingWhereClause
deriving DecidableEq, Repr

/-- Soft delete of `models.VirtualMachine` rows, mirroring
`Database.Clauses(clause.OnConflict{DoNothing: true}).Delete(&this)`:
stamps `deletedAt` on every live row with the given primary key.  The
conflict clause has no effect on a delete.  Absent rows are tolerated; only
a zero primary key is an error. -/
def vmSoftDelete (rows : List VirtualMachine) (id : Nat) :
    List VirtualMachine × Option GormError :=
  if id == 0 then (rows, some GormError.missingWhereClause)
  else
    (rows.map (fun r =>
      if r.id == id && r.deletedAt.isNone then { r with deletedAt := some 1 } else r),
     none)

/-- Unscoped (permanent) delete of `models.VirtualMachine` rows, mirroring
`Database.Model(&VirtualMachine{}).Unscoped().Model(&VirtualMachine{}).Delete(&this)`:
removes every row with the given primary key, soft-deleted or not. -/
def vmUnscopedDelete (rows : List VirtualMachine) (id : Nat) :
    List VirtualMachine × Option GormError :=
  if id == 0 then (rows, some GormError.missingWhereClause)
  else (rows.filter (fun r => r.id != id), none)

/-- Embeds `VirtualMachine.Delete` (models.go lines 131-136): a soft delete
followed by an unconditional permanent purge; the error returned to the
caller is the soft-delete error only (the purge result is discarded by the
source). -/
def VirtualMachine.Delete (rows : List VirtualMachine) (this : VirtualMachine) :
    List VirtualMachine × Option GormError :=
  let Deleted := vmSoftDelete rows this.id
  let purged := vmUnscopedDelete Deleted.1 this.id
  (purged.1, Deleted.2)

/-- Mirrors the `models.SSHPublicKey` gorm model (models.go lines 138-143):
`gorm.Model` bookkeeping plus the key content, filename, and the unique
`virtual_machine_id` column. -/
structure SSHPublicKey where
  id : Nat
  deletedAt : Option Nat
  Key : String
  Filename : String
  VirtualMachineID : Int
deriving DecidableEq, Repr

/-- Embeds `SSHPublicKey.Update` (models.go lines 158-163):
`Database.Model(&SSHPublicKey{}).Unscoped().Where("virtual_machine_id = ?",
this.VirtualMachineID).Update("Key", NewSshKey)`.  The update is unscoped
(soft-deleted rows included), touches only the `Key` column of rows whose
`virtual_machine_id` matches, and ignores the variadic `Filename` argument,
which the source never reads. -/
def SSHPublicKey.Update (rows : List SSHPublicKey) (this : SSHPublicKey)
    (NewSshKey : String) (Filename : List String) :
    List SSHPublicKey × Option GormError :=
  (rows.map (fun r =>
    if r.VirtualMachineID == this.VirtualMachineID then { r with Key := NewSshKey } else r),
   none)

/-- Certificate authorities whose issued certificates carry the requested
distinguished name: whenever signing succeeds, the subject recorded in the
returned content is the distinguished name that was submitted. -/
def WellFormedCA (cp : ControlPlane) : Prop :=
  ∀ ctx host dn content,
    cp.signByDn ctx host dn = (content, none) → cp.subjectOf content = dn

/-- Control plane on which every operation succeeds: one host, a certificate
authority that records the submitted distinguished name as the certificate
content, and fault-free transport. -/
def cpGood : ControlPlane :=
  { hostSystemOf := fun _ _ => some ("host-1")
    signByDn := fun _ _ dn => (dn, none)
    installServerCertificate := fun _ _ _ => none
    certificateInfoFault := fun _ _ => none
    retrieveOne := fun _ _ => none
    subjectOf := fun content => content }

/-- Control plane on which the host system of every VM fails to resolve. -/
def cpNoHost : ControlPlane :=
  { cpGood with hostSystemOf := fun _ _ => none }

/-- Control plane whose certificate authority rejects every signing request,
returning the zero-value content together with a fault. -/
def cpRejectSigning : ControlPlane :=
  { cpGood with signByDn := fun _ _ _ => ("", some (GoError.fault 7)) }

/-- Control plane on which the property-collector attribute fetch fails. -/
def cpRetrieveFail : ControlPlane :=
  { cpGood with retrieveOne := fun _ _ => some (GoError.fault 3) }

/-- Sample virtual machine reference. -/
def vmWeb : VmRef :=
  { name := "web-1" }

/-- Sample random draws: a canonical uuid plus a bcrypt salt and a concrete
digest value for the opaque digest function. -/
def envSample : RootCredentialsEnv :=
  { uuidNew := "8f14e45f-ceea-467f-a8cb-9f3c6b2e19a0"
    bcryptSalt := "N9qo8uLOickgx2ZMRZoMye"
    bcryptDigest := fun _ _ _ => "IjZAgcfl7p92ldGxad68LJZdL17lhWy" }

/-- Credentials as produced for `vmWeb` by the certificate authority of
`cpGood`: the content is the distinguished name itself. -/
def uploadedKey : SshCertificateCredentials :=
  NewSshCertificateCredentials (sslCertificateDistinguishName vmWeb) ("ssh_key.pub")

/-- Sample `models.VirtualMachine` row. -/
def vmRow1 : VirtualMachine :=
  { id := 1, deletedAt := none, OwnerId := "alice", VirtualMachineName := "web-1",
    ItemPath := "dc/vm/web-1", IPAddress := "10.0.0.5" }

/-- Sample `models.SSHPublicKey` row attached to virtual machine 7. -/
def keyRow1 : SSHPublicKey :=
  { id := 1, deletedAt := none, Key := "old-content", Filename := "ssh_key.pub",
    VirtualMachineID := 7 }

/-- Sample `models.SSHPublicKey` row attached to virtual machine 8. -/
def keyRow2 : SSHPublicKey :=
  { id := 2, deletedAt := none, Key := "other-content", Filename := "second.pub",
    VirtualMachineID := 8 }

/-! Theorems settling the claims. -/

/-- C2: on every call to `GetSshPublicCertificate`, the local pointer
`CertificateHostManager` is dereferenced while it was declared nil and never
assigned, and a failed host-system resolution does not stop execution before
the dereference: in the total embedding the nil-dereference branch is taken
on every call, whatever the control plane, installed certificates, virtual
machine, or filename. -/
theorem getSshPublicCertificate_always_nil_deref (cp : ControlPlane)
    (st : HostCerts) (vm : VmRef) (fn : String) :
    (GetSshPublicCertificate cp st vm fn).1 = GoResult.nilPointerDereference := by
  rfl

/-- C1 (code bug): on a control plane where the host system of the VM cannot
be located, `GetSshPublicCertificate` logs the resolution failure and then
proceeds as if resolution had succeeded, running into the nil-pointer
dereference; the evaluated result is the dereference outcome together with
the log line, not a returned typed error. -/
theorem getSshPublicCertificate_swallows_host_failure :
    GetSshPublicCertificate cpNoHost [] vmWeb ("ssh_key.pub")
      = (GoResult.nilPointerDereference, [LogEvent.errorDetermineHostSystem]) := by
  rfl

/-- C7 (code bug): installing the certificate for `vmWeb` succeeds and
leaves a certificate whose subject is the expected distinguished name
readable on the host, yet the subsequent `GetSshPublicCertificate` call ends
in the nil-pointer dereference instead of returning that certificate
info. -/
theorem uploadSshKeys_then_get_fails :
    (UploadSshKeys cpGood [] vmWeb uploadedKey).1 = none ∧
    managerCertificateInfo cpGood (UploadSshKeys cpGood [] vmWeb uploadedKey).2.1
        (contextWithTimeout backgroundContext (timeSecond * 20)) ("host-1")
      = Except.ok { subject := sslCertificateDistinguishName vmWeb } ∧
    (GetSshPublicCertificate cpGood (UploadSshKeys cpGood [] vmWeb uploadedKey).2.1
        vmWeb ("ssh_key.pub")).1
      = GoResult.nilPointerDereference := by
  exact ⟨rfl, rfl, rfl⟩

/-- Modular-crypt output of the bcrypt model always contains the dollar
marker of its format header. -/
theorem bcrypt_contains_dollar (env : RootCredentialsEnv) (password : String)
    (cost : Nat) : '$' ∈ (bcryptGenerateFromPassword env password cost).data := by
  unfold bcryptGenerateFromPassword
  simp [String.data_append, List.mem_append]

/-- Output of the bcrypt model is never equal to a uuid-shaped plaintext:
the hash starts its modular-crypt header with a dollar sign, a character a
canonical uuid string never contains. -/
theorem bcrypt_output_ne_uuid (env : RootCredentialsEnv) (password : String)
    (cost : Nat) (s : String) (hs : isUuidString s = true) :
    bcryptGenerateFromPassword env password cost ≠ s := by
  intro heq
  have hmem : '$' ∈ s.data := heq ▸ bcrypt_contains_dollar env password cost
  have hall : s.data.all (fun ch => isHexChar ch || ch == '-') = true := by
    unfold isUuidString at hs
    simp only [Bool.and_eq_true] at hs
    exact hs.2
  have hchar := List.all_eq_true.mp hall ('$') hmem
  simp [isHexChar] at hchar

/-- C3 counterexample: a successful `GetSshRootCredentials` call on a
concrete control plane and concrete random draws returns a password that is
NOT the freshly generated plaintext random secret (the uuid): the code
passes the uuid through bcrypt and returns the hash as the password, so the
claim that the plaintext itself is returned fails. -/
theorem getSshRootCredentials_password_not_plaintext :
    ((GetSshRootCredentials envSample cpGood vmWeb).1.map
        (fun creds => creds.Password)) ≠ some envSample.uuidNew ∧
    (GetSshRootCredentials envSample cpGood vmWeb).1.isSome = true := by
  exact ⟨by decide, rfl⟩

/-- C3 amended: on every successful `GetSshRootCredentials` call the
returned password is the bcrypt hash, at cost 15, of the freshly drawn
uuid — not the plaintext uuid itself — and the hash is never equal to that
plaintext. -/
theorem getSshRootCredentials_password_is_hash (env : RootCredentialsEnv)
    (cp : ControlPlane) (vm : VmRef) (hu : isUuidString env.uuidNew = true) :
    ∀ creds, (GetSshRootCredentials env cp vm).1 = some creds →
      creds.Password = bcryptGenerateFromPassword env env.uuidNew 15 ∧
      creds.Password ≠ env.uuidNew := by
  intro creds hcreds
  cases hr : cp.retrieveOne (contextWithTimeout backgroundContext (timeSecond * 10))
      vm.name with
  | some e =>
    simp [GetSshRootCredentials, hr] at hcreds
  | none =>
    simp [GetSshRootCredentials, hr] at hcreds
    constructor
    · rw [← hcreds]
    · rw [← hcreds]
      exact bcrypt_output_ne_uuid env env.uuidNew 15 env.uuidNew hu

/-- Witness for the amended C3 theorem at a concrete environment: the sample
uuid is uuid-shaped, the call succeeds, and the returned password is the
hash and differs from the plaintext uuid. -/
theorem getSshRootCredentials_password_is_hash_witness :
    isUuidString envSample.uuidNew = true ∧
    (GetSshRootCredentials envSample cpGood vmWeb).1 = some
      { Username := "root",
        Password := bcryptGenerateFromPassword envSample envSample.uuidNew 15 } ∧
    ({ Username := "root",
       Password := bcryptGenerateFromPassword envSample envSample.uuidNew 15 } :
        NamePasswordAuthentication).Password ≠ envSample.uuidNew := by
  refine ⟨by decide, rfl, ?_⟩
  exact (getSshRootCredentials_password_is_hash envSample cpGood vmWeb (by decide)
    { Username := "root",
      Password := bcryptGenerateFromPassword envSample envSample.uuidNew 15 } rfl).2

/-- C4: `GetSshRootCredentials` fixes the returned username to root, and
returns the credential pair exactly when the guest/name metadata retrieval
succeeds; when retrieval fails it returns the retrieval error and no
credentials, and when it succeeds it returns no error. -/
theorem getSshRootCredentials_root_iff_retrieve (env : RootCredentialsEnv)
    (cp : ControlPlane) (vm : VmRef) :
    (∀ creds, (GetSshRootCredentials env cp vm).1 = some creds →
        creds.Username = "root") ∧
    ((GetSshRootCredentials env cp vm).1.isSome = true ↔
      cp.retrieveOne (contextWithTimeout backgroundContext (timeSecond * 10))
          vm.name = none) ∧
    (∀ e, cp.retrieveOne (contextWithTimeout backgroundContext (timeSecond * 10))
          vm.name = some e →
        (GetSshRootCredentials env cp vm).1 = none ∧
        (GetSshRootCredentials env cp vm).2.1 = some e) ∧
    (cp.retrieveOne (contextWithTimeout backgroundContext (timeSecond * 10))
          vm.name = none →
        (GetSshRootCredentials env cp vm).2.1 = none) := by
  cases hr : cp.retrieveOne (contextWithTimeout backgroundContext (timeSecond * 10))
      vm.name with
  | some e =>
    refine ⟨?_, ?_, ?_, ?_⟩
    · intro creds hcreds
      simp [GetSshRootCredentials, hr] at hcreds
    · simp [GetSshRootCredentials, hr]
    · intro f hf
      cases hf
      simp [GetSshRootCredentials, hr]
    · intro hnone
      exact absurd hnone (by simp)
  | none =>
    refine ⟨?_, ?_, ?_, ?_⟩
    · intro creds hcreds
      simp [GetSshRootCredentials, hr] at hcreds
      rw [← hcreds]
    · simp [GetSshRootCredentials, hr]
    · intro f hf
      exact absurd hf (by simp)
    · intro _
      simp [GetSshRootCredentials, hr]

/-- Witness for C4 at a concrete failing control plane: the attribute fetch
fails with fault 3 and the call returns no credentials and that error. -/
theorem getSshRootCredentials_root_iff_retrieve_witness :
    cpRetrieveFail.retrieveOne
        (contextWithTimeout backgroundContext (timeSecond * 10)) vmWeb.name
      = some (GoError.fault 3) ∧
    (GetSshRootCredentials envSample cpRetrieveFail vmWeb).1 = none ∧
    (GetSshRootCredentials envSample cpRetrieveFail vmWeb).2.1
      = some (GoError.fault 3) := by
  refine ⟨rfl, ?_, ?_⟩
  · exact ((getSshRootCredentials_root_iff_retrieve envSample cpRetrieveFail
        vmWeb).2.2.1 (GoError.fault 3) rfl).1
  · exact ((getSshRootCredentials_root_iff_retrieve envSample cpRetrieveFail
        vmWeb).2.2.1 (GoError.fault 3) rfl).2

/-- C5 counterexample: on a control plane whose certificate authority
rejects the signing request, `GenerateSshKeys` does NOT return either a
credentials value or an error exclusively: the single return statement of
the source wraps the (zero-value) generated content in a credentials value
and returns it together with the generation error. -/
theorem generateSshKeys_returns_both :
    (GenerateSshKeys cpRejectSigning vmWeb).1
      = some (NewSshCertificateCredentials ("") ("ssh_key.pub")) ∧
    (GenerateSshKeys cpRejectSigning vmWeb).2 = some (GoError.fault 7) := by
  exact ⟨rfl, rfl⟩

/-- C5 amended: `GenerateSshKeys` returns no credentials value exactly when
host resolution fails (then with its host-resolution error); whenever the
host resolves it returns a credentials value with filename ssh_key.pub
wrapping whatever content the certificate authority answered, TOGETHER with
the signing error whenever the authority rejected the request — on
rejection the error does not suppress the credentials value. -/
theorem generateSshKeys_error_cases (cp : ControlPlane) (vm : VmRef) :
    ((GenerateSshKeys cp vm).1 = none ↔
      cp.hostSystemOf (contextWithTimeout backgroundContext (timeMinute * 1))
          vm.name = none) ∧
    (cp.hostSystemOf (contextWithTimeout backgroundContext (timeMinute * 1))
          vm.name = none →
      (GenerateSshKeys cp vm).2 = some GoError.failedToGetOsInfo) ∧
    (∀ host, cp.hostSystemOf (contextWithTimeout backgroundContext (timeMinute * 1))
          vm.name = some host →
      (GenerateSshKeys cp vm).1
        = some (NewSshCertificateCredentials
            (cp.signByDn (contextWithTimeout backgroundContext (timeMinute * 1))
              host (sslCertificateDistinguishName vm)).1 ("ssh_key.pub")) ∧
      (GenerateSshKeys cp vm).2
        = (cp.signByDn (contextWithTimeout backgroundContext (timeMinute * 1))
            host (sslCertificateDistinguishName vm)).2) := by
  cases hh : cp.hostSystemOf (contextWithTimeout backgroundContext (timeMinute * 1))
      vm.name with
  | none =>
    have hh1 : cp.hostSystemOf (contextWithTimeout backgroundContext timeMinute)
        vm.name = none := by simpa using hh
    refine ⟨?_, ?_, ?_⟩
    · simp [GenerateSshKeys, hh1]
    · intro _
      simp [GenerateSshKeys, hh1]
    · intro host hhost
      exact absurd hhost (by simp)
  | some host =>
    have hh1 : cp.hostSystemOf (contextWithTimeout backgroundContext timeMinute)
        vm.name = some host := by simpa using hh
    refine ⟨?_, ?_, ?_⟩
    · simp [GenerateSshKeys, hh1]
    · intro hnone
      exact absurd hnone (by simp)
    · intro h hhost
      cases hhost
      exact ⟨by simp [GenerateSshKeys, hh1], by simp [GenerateSshKeys, hh1]⟩

/-- Witness for the amended C5 theorem: on the all-success control plane the
host resolves to host-1, a credentials value with filename ssh_key.pub and
the signed content is returned, and the error is nil. -/
theorem generateSshKeys_error_cases_witness :
    (GenerateSshKeys cpGood vmWeb).1
      = some (NewSshCertificateCredentials (sslCertificateDistinguishName vmWeb)
          ("ssh_key.pub")) ∧
    (GenerateSshKeys cpGood vmWeb).2 = none := by
  have h := (generateSshKeys_error_cases cpGood vmWeb).2.2 ("host-1") rfl
  exact ⟨h.1, h.2⟩

/-- C6: for a virtual machine whose host system resolves and whose signing
request the certificate authority accepts, `GenerateSshKeys` returns, with
no error, credentials whose output filename is the constant ssh_key.pub and
whose certificate content carries the distinguished name
VirtualMachine-<name> — the name submitted in the signing request. -/
theorem generateSshKeys_dn_and_filename (cp : ControlPlane) (vm : VmRef)
    (host content : String) (hwf : WellFormedCA cp)
    (hh : cp.hostSystemOf (contextWithTimeout backgroundContext (timeMinute * 1))
        vm.name = some host)
    (hs : cp.signByDn (contextWithTimeout backgroundContext (timeMinute * 1))
        host (sslCertificateDistinguishName vm) = (content, none)) :
    GenerateSshKeys cp vm
      = (some (NewSshCertificateCredentials content ("ssh_key.pub")), none) ∧
    cp.subjectOf content = "VirtualMachine-" ++ vm.name := by
  have hh1 : cp.hostSystemOf (contextWithTimeout backgroundContext timeMinute)
      vm.name = some host := by simpa using hh
  have hs1 : cp.signByDn (contextWithTimeout backgroundContext timeMinute)
      host (sslCertificateDistinguishName vm) = (content, none) := by simpa using hs
  constructor
  · simp [GenerateSshKeys, hh1, hs1]
  · exact hwf _ _ _ _ hs

/-- Witness for C6: on the all-success control plane, generation for vmWeb
yields filename ssh_key.pub and content whose subject is
VirtualMachine-web-1. -/
theorem generateSshKeys_dn_and_filename_witness :
    GenerateSshKeys cpGood vmWeb
      = (some (NewSshCertificateCredentials (sslCertificateDistinguishName vmWeb)
          ("ssh_key.pub")), none) ∧
    cpGood.subjectOf (sslCertificateDistinguishName vmWeb)
      = "VirtualMachine-" ++ vmWeb.name := by
  refine generateSshKeys_dn_and_filename cpGood vmWeb ("host-1")
    (sslCertificateDistinguishName vmWeb) ?_ rfl rfl
  intro ctx h dn content hsign
  have hdn : dn = content := congrArg Prod.fst hsign
  rw [← hdn]
  rfl

/-- C8: for every row set and every virtual machine with a real (nonzero)
primary key, a second `VirtualMachine.Delete` call right after a first one
produces no error — deleting the already-absent row is treated as success —
and the first call already ends with a permanent purge: no row with that
primary key survives it. -/
theorem virtualMachine_delete_idempotent (rows : List VirtualMachine)
    (vm : VirtualMachine) (h : vm.id ≠ 0) :
    (VirtualMachine.Delete (VirtualMachine.Delete rows vm).1 vm).2 = none ∧
    (VirtualMachine.Delete rows vm).2 = none ∧
    (∀ r, r ∈ (VirtualMachine.Delete rows vm).1 → r.id ≠ vm.id) := by
  have hb : (vm.id == 0) = false := by simpa using h
  refine ⟨?_, ?_, ?_⟩
  · simp [VirtualMachine.Delete, vmSoftDelete, hb]
  · simp [VirtualMachine.Delete, vmSoftDelete, hb]
  · intro r hr
    simp [VirtualMachine.Delete, vmSoftDelete, vmUnscopedDelete, hb] at hr
    exact hr.2

/-- Witness for C8 on a concrete one-row table: the repeated delete of the
row with primary key 1 returns no error. -/
theorem virtualMachine_delete_idempotent_witness :
    vmRow1.id ≠ 0 ∧
    (VirtualMachine.Delete (VirtualMachine.Delete [vmRow1] vmRow1).1 vmRow1).2
      = none := by
  exact ⟨by decide, (virtualMachine_delete_idempotent [vmRow1] vmRow1 (by decide)).1⟩

/-- C10: `SSHPublicKey.Update` leaves the result independent of the variadic
filename argument, reports no error, never changes the `Filename` or
`VirtualMachineID` column of any row, leaves rows with a different
`virtual_machine_id` entirely unchanged, and overwrites the `Key` column of
every row whose `virtual_machine_id` matches. -/
theorem sshPublicKey_update_frame (rows : List SSHPublicKey)
    (k : SSHPublicKey) (NewSshKey : String) (fns fnsAlt : List String) :
    SSHPublicKey.Update rows k NewSshKey fns
      = SSHPublicKey.Update rows k NewSshKey fnsAlt ∧
    (SSHPublicKey.Update rows k NewSshKey fns).2 = none ∧
    (∀ i : Nat, ((SSHPublicKey.Update rows k NewSshKey fns).1[i]?).map
          SSHPublicKey.Filename = (rows[i]?).map SSHPublicKey.Filename) ∧
    (∀ i : Nat, ((SSHPublicKey.Update rows k NewSshKey fns).1[i]?).map
          SSHPublicKey.VirtualMachineID
        = (rows[i]?).map SSHPublicKey.VirtualMachineID) ∧
    (∀ (i : Nat) (r : SSHPublicKey), rows[i]? = some r →
        r.VirtualMachineID ≠ k.VirtualMachineID →
        (SSHPublicKey.Update rows k NewSshKey fns).1[i]? = some r) ∧
    (∀ (i : Nat) (r : SSHPublicKey), rows[i]? = some r →
        r.VirtualMachineID = k.VirtualMachineID →
        ((SSHPublicKey.Update rows k NewSshKey fns).1[i]?).map SSHPublicKey.Key
          = some NewSshKey) := by
  refine ⟨rfl, rfl, ?_, ?_, ?_, ?_⟩
  · intro i
    cases hri : rows[i]? with
    | none => simp [SSHPublicKey.Update, List.getElem?_map, hri]
    | some r =>
      simp only [SSHPublicKey.Update, List.getElem?_map, hri, Option.map_some']
      split <;> rfl
  · intro i
    cases hri : rows[i]? with
    | none => simp [SSHPublicKey.Update, List.getElem?_map, hri]
    | some r =>
      simp only [SSHPublicKey.Update, List.getElem?_map, hri, Option.map_some']
      split <;> rfl
  · intro i r hri hne
    have hb : ¬ ((r.VirtualMachineID == k.VirtualMachineID) = true) := by
      simpa using hne
    simp only [SSHPublicKey.Update, List.getElem?_map, hri, Option.map_some']
    rw [if_neg hb]
  · intro i r hri heq
    have hb : (r.VirtualMachineID == k.VirtualMachineID) = true := by
      simpa using heq
    simp only [SSHPublicKey.Update, List.getElem?_map, hri, Option.map_some']
    rw [if_pos hb]

/-- Witness for C10 on a concrete two-row table: updating through the row
bound to virtual machine 7 overwrites the key content of the matching row
and leaves the row of virtual machine 8 untouched. -/
theorem sshPublicKey_update_frame_witness :
    ((SSHPublicKey.Update [keyRow1, keyRow2] keyRow1 ("new-content") []).1[0]?).map
        SSHPublicKey.Key = some ("new-content") ∧
    (SSHPublicKey.Update [keyRow1, keyRow2] keyRow1 ("new-content") []).1[1]?
      = some keyRow2 := by
  refine ⟨?_, ?_⟩
  · exact (sshPublicKey_update_frame [keyRow1, keyRow2] keyRow1 ("new-content")
      [] []).2.2.2.2.2 0 keyRow1 rfl (by decide)
  · exact (sshPublicKey_update_frame [keyRow1, keyRow2] keyRow1 ("new-content")
      [] []).2.2.2.2.1 1 keyRow2 rfl (by decide)

/-- C9: every control-plane operation creates its own cancellation deadline
with the stated bound, and interacts with the control plane only through a
context carrying that deadline: the guest-metadata read of
`GetSshRootCredentials` under 10 seconds, the certificate read of
`GetSshPublicCertificate` under 20 seconds, and certificate generation
(`GenerateSshKeys`) and installation (`UploadSshKeys`) under 60 seconds.
Formally, any two control planes that agree on the calls made at the stated
deadline are indistinguishable to the corresponding operation. -/
theorem operation_deadlines (env : RootCredentialsEnv) (cp cpAlt : ControlPlane)
    (st : HostCerts) (vm : VmRef) (fn : String) (key : SshCertificateCredentials)
    (h10 : ∀ v, cp.retrieveOne { deadlineNanos := some (10 * timeSecond) } v
        = cpAlt.retrieveOne { deadlineNanos := some (10 * timeSecond) } v)
    (h20 : ∀ v, cp.hostSystemOf { deadlineNanos := some (20 * timeSecond) } v
        = cpAlt.hostSystemOf { deadlineNanos := some (20 * timeSecond) } v)
    (h60 : ∀ v, cp.hostSystemOf { deadlineNanos := some (60 * timeSecond) } v
        = cpAlt.hostSystemOf { deadlineNanos := some (60 * timeSecond) } v)
    (h60sign : ∀ host dn, cp.signByDn { deadlineNanos := some (60 * timeSecond) } host dn
        = cpAlt.signByDn { deadlineNanos := some (60 * timeSecond) } host dn)
    (h60install : ∀ host c,
        cp.installServerCertificate { deadlineNanos := some (60 * timeSecond) } host c
        = cpAlt.installServerCertificate { deadlineNanos := some (60 * timeSecond) } host c) :
    GetSshRootCredentials env cp vm = GetSshRootCredentials env cpAlt vm ∧
    GetSshPublicCertificate cp st vm fn = GetSshPublicCertificate cpAlt st vm fn ∧
    GenerateSshKeys cp vm = GenerateSshKeys cpAlt vm ∧
    UploadSshKeys cp st vm key = UploadSshKeys cpAlt st vm key := by
  have e10 : contextWithTimeout backgroundContext (timeSecond * 10)
      = ({ deadlineNanos := some (10 * timeSecond) } : Context) := by
    simp [contextWithTimeout, backgroundContext, Nat.mul_comm]
  have e20 : contextWithTimeout backgroundContext (timeSecond * 20)
      = ({ deadlineNanos := some (20 * timeSecond) } : Context) := by
    simp [contextWithTimeout, backgroundContext, Nat.mul_comm]
  have e60 : contextWithTimeout backgroundContext (timeMinute * 1)
      = ({ deadlineNanos := some (60 * timeSecond) } : Context) := by
    simp [contextWithTimeout, backgroundContext, timeMinute]
  refine ⟨?_, ?_, ?_, ?_⟩
  · unfold GetSshRootCredentials
    simp only [e10, h10 vm.name]
  · unfold GetSshPublicCertificate
    simp only [e20, h20 vm.name]
  · unfold GenerateSshKeys
    simp only [e60, h60 vm.name]
    cases hAlt : cpAlt.hostSystemOf ({ deadlineNanos := some (60 * timeSecond) } : Context)
        vm.name with
    | none => simp [hAlt]
    | some host => simp [hAlt, h60sign host (sslCertificateDistinguishName vm)]
  · unfold UploadSshKeys
    simp only [e60, h60 vm.name]
    cases hAlt : cpAlt.hostSystemOf ({ deadlineNanos := some (60 * timeSecond) } : Context)
        vm.name with
    | none => simp [hAlt]
    | some host => simp [hAlt, h60install host key.Content]

/-- Witness for C9 at a concrete instantiation: the all-success control
plane agrees with itself at every stated deadline, and each operation
result coincides with itself. -/
theorem operation_deadlines_witness :
    GetSshRootCredentials envSample cpGood vmWeb
      = GetSshRootCredentials envSample cpGood vmWeb ∧
    GetSshPublicCertificate cpGood [] vmWeb ("ssh_key.pub")
      = GetSshPublicCertificate cpGood [] vmWeb ("ssh_key.pub") ∧
    GenerateSshKeys cpGood vmWeb = GenerateSshKeys cpGood vmWeb ∧
    UploadSshKeys cpGood [] vmWeb uploadedKey
      = UploadSshKeys cpGood [] vmWeb uploadedKey := by
  exact operation_deadlines envSample cpGood cpGood [] vmWeb ("ssh_key.pub")
    uploadedKey (fun _ => rfl) (fun _ => rfl) (fun _ => rfl)
    (fun _ _ => rfl) (fun _ _ => rfl)
